import Mathlib

/-!
# Verification of the street-view-node-mcp request handlers

Shallow embedding of `src/index.ts`, the single source file of the
`street-view-node-mcp` repository.  The embedding models:

* the Zod input schemas `GetStreetViewSchema`, `GetMetadataSchema`,
  `CreateHtmlPageSchema` (optional fields, integer range checks, the
  `refine` that counts location selectors via JavaScript truthiness);
* the helper `parseLatLng` (over a model of JavaScript `parseFloat`
  restricted to optional sign / digits / optional fraction — the decimal
  forms relevant here; no exponents or hex);
* the four tool handlers `get_street_view`, `get_metadata`,
  `create_html_page`, `list_saved_images`, each as a pure function over an
  explicit filesystem state (an association list path ↦ content), an
  environment (the optional API key), and a network oracle, returning a
  result together with the ordered list of I/O events the handler performs.

JavaScript numbers that reach the schemas are modelled as `ℚ` (the schema
then checks integrality with `.int()`); modification timestamps are kept as
their ISO-8601 strings, exactly the values `localeCompare` sorts in the
source (ISO strings are fixed width, so lexicographic order is
chronological order).
-/

/-- Raw image bytes; contents are opaque to the handlers. -/
def Bytes := List Nat

deriving instance DecidableEq for Bytes

deriving instance DecidableEq for Except

/-- A filesystem directory: an association list from path to contents.
`fs.lookup`-style access is via `fsGet`. -/
def Fs (β : Type) := List (String × β)

/-- Look a path up in a directory model (first match wins). -/
def fsGet {β : Type} : Fs β → String → Option β
  | [], _ => none
  | (k, v) :: t, path => if k = path then some v else fsGet t path

/-- Number of entries at a given path. -/
def fsCount {β : Type} (fs : Fs β) (path : String) : Nat :=
  (fs.filter (fun p => p.1 = path)).length

/-- JavaScript truthiness of a `string | undefined` value: `undefined` and
the empty string are falsy.  This is what `filter(Boolean)` uses in the
schemas' `refine` (src/index.ts:63, 76). -/
def truthy : Option String → Bool
  | none => false
  | some s => s ≠ ""

/-- `[data.location, data.lat_lng, data.pano_id].filter(Boolean).length`
from the `refine` of both `GetStreetViewSchema` and `GetMetadataSchema`
(src/index.ts:62-67, 75-80). -/
def countLocationMethods (location lat_lng pano_id : Option String) : Nat :=
  ([location, lat_lng, pano_id].filter truthy).length

/-- A Zod `z.number().int().min(lo).max(hi).optional().default(d)` chain:
absent value takes the default; a present value must be an integer and lie
within the given optional bounds (src/index.ts:57-60, 73). -/
def checkInt (x : Option ℚ) (d : Int) (lo hi : Option Int) : Except String Int :=
  match x with
  | none => .ok d
  | some q =>
    if q.den = 1 then
      if (match lo with | none => true | some l => decide (l ≤ q.num)) then
        if (match hi with | none => true | some h => decide (q.num ≤ h)) then
          .ok q.num
        else .error "Number must be less than or equal to maximum"
      else .error "Number must be greater than or equal to minimum"
    else .error "Expected integer, received float"

/-- `z.enum(["default", "outdoor"]).optional().default("default")`
(src/index.ts:61, 74). -/
def checkSource (x : Option String) : Except String String :=
  match x with
  | none => .ok "default"
  | some s => if s = "default" ∨ s = "outdoor" then .ok s else .error "Invalid enum value"

/-- Argument bag for `get_street_view` as received from the host, before
validation.  Fields the caller omitted are `none`. -/
structure SVRawArgs where
  filename : Option String := none
  location : Option String := none
  lat_lng : Option String := none
  pano_id : Option String := none
  size : Option String := none
  heading : Option ℚ := none
  pitch : Option ℚ := none
  fov : Option ℚ := none
  radius : Option ℚ := none
  source : Option String := none

/-- `get_street_view` arguments after `GetStreetViewSchema.parse`:
defaults filled in, numeric fields known integral and in range. -/
structure SVArgs where
  filename : String
  location : Option String
  lat_lng : Option String
  pano_id : Option String
  size : String
  heading : Int
  pitch : Int
  fov : Int
  radius : Int
  source : String
deriving DecidableEq

/-- `GetStreetViewSchema.parse` (src/index.ts:51-67): field checks in
declaration order, then the `refine` requiring exactly one truthy location
selector. -/
def parseSV (a : SVRawArgs) : Except String SVArgs := do
  let filename ← match a.filename with
    | none => Except.error "Required"
    | some f =>
      if f.length ≥ 1 then Except.ok f else Except.error "Filename cannot be empty"
  let heading ← checkInt a.heading 0 (some 0) (some 360)
  let pitch ← checkInt a.pitch 0 (some (-90)) (some 90)
  let fov ← checkInt a.fov 90 (some 10) (some 120)
  let radius ← checkInt a.radius 50 (some 1) none
  let source ← checkSource a.source
  if countLocationMethods a.location a.lat_lng a.pano_id = 1 then
    Except.ok
      { filename, location := a.location, lat_lng := a.lat_lng,
        pano_id := a.pano_id, size := a.size.getD "600x400",
        heading, pitch, fov, radius, source }
  else
    Except.error "Exactly one of location, lat_lng, or pano_id must be provided"

/-- Argument bag for `get_metadata` before validation. -/
structure MetaRawArgs where
  location : Option String := none
  lat_lng : Option String := none
  pano_id : Option String := none
  radius : Option ℚ := none
  source : Option String := none

/-- `get_metadata` arguments after `GetMetadataSchema.parse`. -/
structure MetaArgs where
  location : Option String
  lat_lng : Option String
  pano_id : Option String
  radius : Int
  source : String
deriving DecidableEq

/-- `GetMetadataSchema.parse` (src/index.ts:69-80). -/
def parseMeta (a : MetaRawArgs) : Except String MetaArgs := do
  let radius ← checkInt a.radius 50 (some 1) none
  let source ← checkSource a.source
  if countLocationMethods a.location a.lat_lng a.pano_id = 1 then
    Except.ok
      { location := a.location, lat_lng := a.lat_lng, pano_id := a.pano_id,
        radius, source }
  else
    Except.error "Exactly one of location, lat_lng, or pano_id must be provided"

example : (parseSV { filename := some "a.jpg", lat_lng := some "40.7,-74.0" }).isOk = true := by
  decide

example : (parseSV { filename := some "a.jpg" }).isOk = false := by decide

example :
    (parseSV { filename := some "a.jpg", location := some "x", pano_id := some "p" }).isOk
      = false := by decide

/-! ## `parseLatLng` and its `parseFloat` model -/

/-- Numeric value of a list of decimal digit characters. -/
def digitsVal (cs : List Char) : Nat :=
  cs.foldl (fun acc c => acc * 10 + (c.toNat - 48)) 0

/-- JavaScript `"...".split(',')` on a character list: always yields at
least one (possibly empty) part. -/
def splitOnComma : List Char → List (List Char)
  | [] => [[]]
  | c :: t =>
    match splitOnComma t with
    | h :: r => if c = ',' then [] :: h :: r else (c :: h) :: r
    | [] => [[]]

/-- JavaScript `trim()`: strip leading and trailing whitespace. -/
def trimChars (cs : List Char) : List Char :=
  ((cs.dropWhile Char.isWhitespace).reverse.dropWhile Char.isWhitespace).reverse

/-- Models JavaScript `parseFloat` on an already-trimmed character list,
restricted to the decimal forms the handlers care about: optional sign,
integer digits, optional fractional digits; trailing garbage is ignored,
and the result is `none` (JS `NaN`) when no digit is found.  (Exponents,
hex and `Infinity` are outside the inputs this program meets.) -/
def parseFloat (cs : List Char) : Option ℚ :=
  let signed : Bool × List Char :=
    match cs with
    | '-' :: t => (true, t)
    | '+' :: t => (false, t)
    | _ => (false, cs)
  let ipart := signed.2.takeWhile Char.isDigit
  let rest := signed.2.dropWhile Char.isDigit
  let fpart :=
    match rest with
    | '.' :: t => t.takeWhile Char.isDigit
    | _ => []
  if ipart.isEmpty ∧ fpart.isEmpty then none
  else
    let den : Nat := 10 ^ fpart.length
    let mag : ℚ := mkRat (digitsVal ipart * den + digitsVal fpart : Nat) den
    some (if signed.1 then -mag else mag)

/-- `parseLatLng` (src/index.ts:125-135): split on a comma, `parseFloat`
each trimmed part, fail if either of the first two results is `NaN`
(including when there is no second part at all). -/
def parseLatLng (s : String) : Except String (ℚ × ℚ) :=
  let nums := (splitOnComma s.data).map (fun p => parseFloat (trimChars p))
  let lat : Option ℚ := match nums with | a :: _ => a | [] => none
  let lng : Option ℚ := match nums with | _ :: b :: _ => b | _ => none
  match lat, lng with
  | some la, some ln => .ok (la, ln)
  | _, _ => .error "Invalid lat_lng format. Use format: 40.714728,-73.998672"

example : (parseLatLng "40.7,-74.0").toOption = some (mkRat 407 10, mkRat (-74) 1) := by
  decide
example : (parseLatLng "abc,1").isOk = false := by decide
example : (parseLatLng "40.7").isOk = false := by decide

/-! ## Request parameters and handler state -/

/-- The `location` query parameter the handlers send upstream: either the
free-text address, or the coordinate pair re-rendered from `parseLatLng`
(the source formats it back into a `"lat,lng"` string). -/
inductive LocationParam
  | address (s : String)
  | coords (lat lng : ℚ)
deriving DecidableEq

/-- Query parameters of the Street View image request, as assembled at
src/index.ts:369-388.  `radius = none` models `delete params.radius`. -/
structure ImgParams where
  size : String
  heading : Int
  pitch : Int
  fov : Int
  radius : Option Int
  source : String
  returnErrorCode : Bool
  location : Option LocationParam
  pano : Option String
deriving DecidableEq

/-- Query parameters of the metadata request (src/index.ts:450-463). -/
structure MetaParams where
  radius : Option Int
  source : String
  location : Option LocationParam
  pano : Option String
deriving DecidableEq

/-- Parameter assembly of `get_street_view` (src/index.ts:369-388): start
from all display parameters plus `radius`; then the first truthy selector
in order location, lat_lng, pano_id decides the location parameter, and the
pano branch deletes `radius`. -/
def buildImgParams (v : SVArgs) : Except String ImgParams :=
  let base : ImgParams :=
    { size := v.size, heading := v.heading, pitch := v.pitch, fov := v.fov,
      radius := some v.radius, source := v.source, returnErrorCode := true,
      location := none, pano := none }
  if truthy v.location then
    .ok { base with location := some (.address (v.location.getD "")) }
  else if truthy v.lat_lng then
    match parseLatLng (v.lat_lng.getD "") with
    | .error e => .error e
    | .ok (la, ln) => .ok { base with location := some (.coords la ln) }
  else if truthy v.pano_id then
    .ok { base with pano := v.pano_id, radius := none }
  else .ok base

/-- Parameter assembly of `get_metadata` (src/index.ts:450-463). -/
def buildMetaParams (v : MetaArgs) : Except String MetaParams :=
  let base : MetaParams :=
    { radius := some v.radius, source := v.source, location := none, pano := none }
  if truthy v.location then
    .ok { base with location := some (.address (v.location.getD "")) }
  else if truthy v.lat_lng then
    match parseLatLng (v.lat_lng.getD "") with
    | .error e => .error e
    | .ok (la, ln) => .ok { base with location := some (.coords la ln) }
  else if truthy v.pano_id then
    .ok { base with pano := v.pano_id, radius := none }
  else .ok base

/-- Errors a handler can surface, mirroring the spec taxonomy and the
distinct `throw` sites in the source. -/
inductive Err
  | validation (msg : String)
  | conflict (name : String)
  | badLatLng
  | missingKey
  | upstream (msg : String)
deriving DecidableEq

/-- Is the error a schema validation failure? -/
def Err.isValidation : Err → Bool
  | .validation _ => true
  | _ => false

/-- The I/O actions a handler performs, in order of occurrence. -/
inductive Event
  | ensureDir (dir : String)
  | accessCheck (path : String)
  | netImage (p : ImgParams)
  | netMeta (p : MetaParams)
  | fileWrite (path : String)
deriving DecidableEq

/-- Does an event list contain any outbound network request? -/
def hasNetEvent (evs : List Event) : Bool :=
  evs.any fun e =>
    match e with
    | .netImage _ => true
    | .netMeta _ => true
    | _ => false

/-- `OUTPUT_DIR` (src/index.ts:35), relative to the process cwd. -/
def OUTPUT_DIR : String := "output"

/-- `HTML_DIR` (src/index.ts:36), relative to the process cwd. -/
def HTML_DIR : String := "html"

/-- `path.join` for the one-level joins the handlers perform. -/
def joinPath (dir file : String) : String := dir ++ "/" ++ file

/-! ## The four handlers -/

/-- Success payload of `get_street_view`: the saved filename, its path, and
the effective request parameters (the response JSON of src/index.ts:401-428
reports exactly these, plus image metadata read back from the file). -/
structure SVSuccess where
  filename : String
  path : String
  params : ImgParams
deriving DecidableEq

/-- Outcome of one `get_street_view` call: result, ordered I/O events, and
the output directory afterwards. -/
structure SVResult where
  res : Except Err SVSuccess
  events : List Event
  fs : Fs Bytes

/-- The `get_street_view` handler (src/index.ts:348-441).
`key` is `GOOGLE_API_KEY`; `net` is the upstream image endpoint (an oracle
answering one GET); `enc` is Sharp's JPEG re-encoding of the downloaded
bytes.  Order of operations follows the source: schema parse, ensure the
output directory, check the target for existence, assemble parameters
(where `parseLatLng` can fail), require the API key, issue the network
request, write the re-encoded file. -/
def get_street_view (key : Option String) (net : ImgParams → Except String Bytes)
    (enc : Bytes → Bytes) (fs : Fs Bytes) (a : SVRawArgs) : SVResult :=
  match parseSV a with
  | .error e => ⟨.error (.validation e), [], fs⟩
  | .ok v =>
    let path := joinPath OUTPUT_DIR v.filename
    let ev1 := [Event.ensureDir OUTPUT_DIR, Event.accessCheck path]
    match fsGet fs path with
    | some _ => ⟨.error (.conflict v.filename), ev1, fs⟩
    | none =>
      match buildImgParams v with
      | .error _ => ⟨.error .badLatLng, ev1, fs⟩
      | .ok p =>
        match key with
        | none => ⟨.error .missingKey, ev1, fs⟩
        | some _ =>
          let ev2 := ev1 ++ [Event.netImage p]
          match net p with
          | .error msg => ⟨.error (.upstream msg), ev2, fs⟩
          | .ok bytes =>
            ⟨.ok ⟨v.filename, path, p⟩, ev2 ++ [Event.fileWrite path],
              (path, enc bytes) :: fs⟩

/-- The upstream metadata JSON shape (src/index.ts:91-100). -/
structure StreetViewMetadata where
  status : String
  copyright : Option String
  date : Option String
  pano_id : Option String
  location : Option (ℚ × ℚ)
deriving DecidableEq

/-- Outcome of one `get_metadata` call (no filesystem interaction). -/
structure MetaResult where
  res : Except Err StreetViewMetadata
  events : List Event

/-- The `get_metadata` handler (src/index.ts:444-501): schema parse,
assemble parameters (where `parseLatLng` can fail), require the API key,
issue the network request; no filesystem access at all. -/
def get_metadata (key : Option String)
    (net : MetaParams → Except String StreetViewMetadata)
    (a : MetaRawArgs) : MetaResult :=
  match parseMeta a with
  | .error e => ⟨.error (.validation e), []⟩
  | .ok v =>
    match buildMetaParams v with
    | .error _ => ⟨.error .badLatLng, []⟩
    | .ok p =>
      match key with
      | none => ⟨.error .missingKey, []⟩
      | some _ =>
        match net p with
        | .error msg => ⟨.error (.upstream msg), [Event.netMeta p]⟩
        | .ok md => ⟨.ok md, [Event.netMeta p]⟩

/-- Argument bag for `create_html_page` before validation. -/
structure HtmlRawArgs where
  filename : Option String := none
  title : Option String := none
  html_elements : Option (List String) := none

/-- `create_html_page` arguments after `CreateHtmlPageSchema.parse`. -/
structure HtmlArgs where
  filename : String
  title : String
  html_elements : List String
deriving DecidableEq

/-- `CreateHtmlPageSchema.parse` (src/index.ts:82-86): non-empty filename,
optional title defaulting to "Street View Tour", at least one element. -/
def parseHtml (a : HtmlRawArgs) : Except String HtmlArgs := do
  let filename ← match a.filename with
    | none => Except.error "Required"
    | some f =>
      if f.length ≥ 1 then Except.ok f else Except.error "Filename cannot be empty"
  let elems ← match a.html_elements with
    | none => Except.error "Required"
    | some es =>
      if es.length ≥ 1 then Except.ok es else Except.error "HTML elements cannot be empty"
  Except.ok { filename, title := a.title.getD "Street View Tour", html_elements := elems }

/-- JavaScript `s.endsWith(suffix)`: case-sensitive suffix test. -/
def strEndsWith (s suffix : String) : Bool := suffix.data.isSuffixOf s.data

/-- `filename.endsWith('.html') ? filename : filename + '.html'`
(src/index.ts:512). -/
def htmlFilename (filename : String) : String :=
  if strEndsWith filename ".html" then filename else filename ++ ".html"

/-- The fixed page template of src/index.ts:530-566 with the title and the
joined elements interpolated; literal braces are escaped. -/
def htmlTemplate (title content : String) : String :=
  "<!DOCTYPE html>\n<html lang=\"en\">\n<head>\n    <meta charset=\"UTF-8\">\n" ++
  "    <meta name=\"viewport\" content=\"width=device-width, initial-scale=1.0\">\n" ++
  "    <title>" ++ title ++ "</title>\n    <style>\n        body \x7b\n" ++
  "            font-family: Arial, sans-serif;\n            line-height: 1.6;\n" ++
  "            max-width: 800px;\n            margin: 0 auto;\n            padding: 20px;\n" ++
  "            color: #333;\n        \x7d\n        img \x7b\n            max-width: 100%;\n" ++
  "            height: auto;\n            border-radius: 5px;\n            margin: 20px 0;\n" ++
  "        \x7d\n        h1, h2, h3 \x7b\n            color: #2c3e50;\n        \x7d\n" ++
  "        .location \x7b\n            font-weight: bold;\n            margin-bottom: 5px;\n" ++
  "        \x7d\n        .description \x7b\n            margin-bottom: 30px;\n        \x7d\n" ++
  "    </style>\n</head>\n<body>\n" ++ content ++ "\n</body>\n</html>"

/-- Outcome of one `create_html_page` call: result (the final filename on
success), ordered I/O events, and the html directory afterwards. -/
structure HtmlResult where
  res : Except Err String
  events : List Event
  fs : Fs String

/-- The `create_html_page` handler (src/index.ts:503-598): schema parse,
ensure the html directory, derive the filename, check the target for
existence, join the elements with newlines and write the templated page. -/
def create_html_page (fs : Fs String) (a : HtmlRawArgs) : HtmlResult :=
  match parseHtml a with
  | .error e => ⟨.error (.validation e), [], fs⟩
  | .ok v =>
    let hname := htmlFilename v.filename
    let path := joinPath HTML_DIR hname
    let ev1 := [Event.ensureDir HTML_DIR, Event.accessCheck path]
    match fsGet fs path with
    | some _ => ⟨.error (.conflict hname), ev1, fs⟩
    | none =>
      let content := String.intercalate "\n" v.html_elements
      ⟨.ok hname, ev1 ++ [Event.fileWrite path], (path, htmlTemplate v.title content) :: fs⟩

/-- What the filesystem reports for one file in the output directory:
`fs.stat` data plus Sharp's decode result (`none` when Sharp cannot read
the file).  Timestamps are kept as their `toISOString()` renderings, the
exact strings the source compares (ISO strings are fixed width, so their
lexicographic order is chronological order). -/
structure DirEntry where
  filename : String
  sizeBytes : Nat
  created : String
  modified : String
  decoded : Option ((Nat × Nat) × String)
deriving DecidableEq

/-- One record of the `list_saved_images` response (src/index.ts:620-636). -/
structure SavedImage where
  filename : String
  sizeKB : Nat
  dimensions : Option (Nat × Nat)
  format : Option String
  created : String
  modified : String
deriving DecidableEq

/-- `Math.round(stats.size / 1024)` (src/index.ts:623): round half up. -/
def roundKB (sizeBytes : Nat) : Nat := (2 * sizeBytes + 1024) / 2048

/-- Building one response record from a directory entry; the fallback
branch (src/index.ts:629-636) omits dimensions and format. -/
def mkSavedImage (e : DirEntry) : SavedImage :=
  { filename := e.filename, sizeKB := roundKB e.sizeBytes,
    dimensions := e.decoded.map (·.1), format := e.decoded.map (·.2),
    created := e.created, modified := e.modified }

/-- The recognized image extensions (src/index.ts:608). -/
def imageExtensions : List String :=
  [".jpg", ".jpeg", ".png", ".gif", ".bmp", ".webp"]

/-- `imageExtensions.some(ext => file.toLowerCase().endsWith(ext))`
(src/index.ts:609-611). -/
def isImageFile (name : String) : Bool :=
  imageExtensions.any fun ext => ext.data.isSuffixOf (name.data.map Char.toLower)

/-- Lexicographic (code-unit) strict comparison of character lists: the
order `localeCompare` induces on the ISO timestamp strings the source
compares. -/
def charListLt : List Char → List Char → Bool
  | [], [] => false
  | [], _ :: _ => true
  | _ :: _, [] => false
  | a :: as, b :: bs => if a < b then true else if b < a then false else charListLt as bs

/-- The comparator `(a, b) => b.modified.localeCompare(a.modified)`
(src/index.ts:648): `a` may precede `b` exactly when the comparator is
`≤ 0`, i.e. when `b.modified ≤ a.modified` — the list is sorted by
modification time descending. -/
def imageSortRel (a b : SavedImage) : Prop :=
  charListLt a.modified.data b.modified.data = false

instance : DecidableRel imageSortRel := fun a b =>
  inferInstanceAs (Decidable (charListLt a.modified.data b.modified.data = false))

/-- The `list_saved_images` handler (src/index.ts:601-652): filter the
directory listing to recognized image extensions, build a record per file,
and sort most recently modified first. -/
def list_saved_images (dir : List DirEntry) : List SavedImage :=
  List.insertionSort imageSortRel ((dir.filter fun e => isImageFile e.filename).map mkSavedImage)

/-! ## Order theory for the comparator -/

/-- Abbreviation for the lexicographic strict order our comparator model
decides. -/
def CLex (as bs : List Char) : Prop := List.Lex (· < ·) as bs

theorem charListLt_iff_lex : ∀ as bs : List Char, charListLt as bs = true ↔ CLex as bs
  | [], [] => by
    rw [charListLt]
    exact iff_of_false Bool.false_ne_true (List.Lex.not_nil_right _ _)
  | [], _ :: _ => by
    rw [charListLt]
    exact iff_of_true rfl List.Lex.nil
  | _ :: _, [] => by
    rw [charListLt]
    exact iff_of_false Bool.false_ne_true (List.Lex.not_nil_right _ _)
  | a :: as, b :: bs => by
    rw [charListLt]
    rcases lt_trichotomy a b with hab | hab | hab
    · rw [if_pos hab]
      exact iff_of_true rfl (List.Lex.rel hab)
    · subst hab
      rw [if_neg (lt_irrefl a), if_neg (lt_irrefl a)]
      have ih := charListLt_iff_lex as bs
      rw [ih]
      constructor
      · exact fun h => List.Lex.cons h
      · intro h
        cases h with
        | cons h => exact h
        | rel h => exact absurd h (lt_irrefl a)
    · rw [if_neg (lt_asymm hab), if_pos hab]
      apply iff_of_false Bool.false_ne_true
      intro h
      cases h with
      | cons h' => exact absurd hab (lt_irrefl a)
      | rel h' => exact absurd hab (lt_asymm h')

theorem charListLt_false_iff (as bs : List Char) :
    charListLt as bs = false ↔ ¬ CLex as bs := by
  rw [← charListLt_iff_lex, Bool.not_eq_true, Bool.eq_false_iff, ne_eq, Bool.not_eq_true]

theorem clex_trichotomy (as bs : List Char) : CLex as bs ∨ as = bs ∨ CLex bs as :=
  trichotomous_of (List.Lex (· < ·)) as bs

theorem clex_asymm {as bs : List Char} (h : CLex as bs) : ¬ CLex bs as :=
  asymm_of (List.Lex (· < ·)) h

theorem clex_trans {as bs cs : List Char} (h1 : CLex as bs) (h2 : CLex bs cs) :
    CLex as cs :=
  trans_of (List.Lex (· < ·)) h1 h2

instance : IsTotal SavedImage imageSortRel :=
  ⟨fun a b => by
    unfold imageSortRel
    rw [charListLt_false_iff, charListLt_false_iff]
    by_cases h : CLex a.modified.data b.modified.data
    · exact Or.inr (clex_asymm h)
    · exact Or.inl h⟩

instance : IsTrans SavedImage imageSortRel :=
  ⟨fun a b c hab hbc => by
    unfold imageSortRel at *
    rw [charListLt_false_iff] at *
    intro hac
    rcases clex_trichotomy a.modified.data b.modified.data with h | h | h
    · exact hab h
    · exact hbc (h ▸ hac)
    · rcases clex_trichotomy b.modified.data c.modified.data with h' | h' | h'
      · exact hbc h'
      · exact hab (h' ▸ hac)
      · exact hab (clex_trans hac h')⟩

/-- The strict version of the comparator order: `a` strictly more recently
modified than `b`. -/
def imageStrictRel (a b : SavedImage) : Prop :=
  charListLt b.modified.data a.modified.data = true

instance : IsAntisymm SavedImage imageStrictRel :=
  ⟨fun a b h1 h2 => by
    unfold imageStrictRel at h1 h2
    rw [charListLt_iff_lex] at h1 h2
    exact absurd h1 (clex_asymm h2)⟩

/-! ## Inversion and branch lemmas -/

/-- Is the result a schema validation failure? -/
def isValidationError {α : Type} : Except Err α → Bool
  | .error (.validation _) => true
  | _ => false

theorem checkInt_ok_some {x : Option ℚ} {d : Int} {lo hi : Option Int} {n : Int}
    (h : checkInt x d lo hi = .ok n) (q : ℚ) (hx : x = some q) :
    q.den = 1 ∧ n = q.num ∧ (∀ l, lo = some l → l ≤ q.num) ∧
      (∀ u, hi = some u → q.num ≤ u) := by
  subst hx
  simp only [checkInt] at h
  split_ifs at h with h1 h2 h3
  · cases h
    refine ⟨h1, rfl, ?_, ?_⟩
    · intro l hl
      subst hl
      simpa using h2
    · intro u hu
      subst hu
      simpa using h3

theorem checkInt_some_range {x : Option ℚ} {d : Int} {lo hi : Int} {n : Int} {q : ℚ}
    (h : checkInt x d (some lo) (some hi) = .ok n) (hx : x = some q) :
    (lo : ℚ) ≤ q ∧ q ≤ (hi : ℚ) ∧ q.den = 1 := by
  obtain ⟨hden, _, hlo, hhi⟩ := checkInt_ok_some h q hx
  have hq : (q.num : ℚ) = q := Rat.coe_int_num_of_den_eq_one hden
  refine ⟨?_, ?_, hden⟩
  · rw [← hq]
    exact_mod_cast hlo lo rfl
  · rw [← hq]
    exact_mod_cast hhi hi rfl

theorem checkInt_some_lo {x : Option ℚ} {d : Int} {lo : Int} {n : Int} {q : ℚ}
    (h : checkInt x d (some lo) none = .ok n) (hx : x = some q) :
    (lo : ℚ) ≤ q ∧ q.den = 1 := by
  obtain ⟨hden, _, hlo, _⟩ := checkInt_ok_some h q hx
  have hq : (q.num : ℚ) = q := Rat.coe_int_num_of_den_eq_one hden
  refine ⟨?_, hden⟩
  rw [← hq]
  exact_mod_cast hlo lo rfl

theorem parseSV_ok_inv {a : SVRawArgs} {v : SVArgs} (h : parseSV a = .ok v) :
    countLocationMethods a.location a.lat_lng a.pano_id = 1 ∧
    checkInt a.heading 0 (some 0) (some 360) = .ok v.heading ∧
    checkInt a.pitch 0 (some (-90)) (some 90) = .ok v.pitch ∧
    checkInt a.fov 90 (some 10) (some 120) = .ok v.fov ∧
    checkInt a.radius 50 (some 1) none = .ok v.radius ∧
    v.location = a.location ∧ v.lat_lng = a.lat_lng ∧ v.pano_id = a.pano_id := by
  rw [parseSV] at h
  simp only [bind, Except.bind] at h
  repeat' split at h
  all_goals try exact absurd h (fun hc => Except.noConfusion hc)
  cases h
  simp_all

theorem parseMeta_ok_inv {a : MetaRawArgs} {v : MetaArgs} (h : parseMeta a = .ok v) :
    countLocationMethods a.location a.lat_lng a.pano_id = 1 ∧
    checkInt a.radius 50 (some 1) none = .ok v.radius ∧
    v.location = a.location ∧ v.lat_lng = a.lat_lng ∧ v.pano_id = a.pano_id := by
  rw [parseMeta] at h
  simp only [bind, Except.bind] at h
  repeat' split at h
  all_goals try exact absurd h (fun hc => Except.noConfusion hc)
  cases h
  simp_all

/-- A schema failure makes `get_street_view` return the validation error
untouched, with no I/O at all. -/
theorem get_street_view_parse_error {key net enc fs a e} (h : parseSV a = .error e) :
    get_street_view key net enc fs a = ⟨.error (.validation e), [], fs⟩ := by
  rw [get_street_view, h]

/-- A schema failure makes `get_metadata` return the validation error
untouched, with no I/O at all. -/
theorem get_metadata_parse_error {key net a e} (h : parseMeta a = .error e) :
    get_metadata key net a = ⟨.error (.validation e), []⟩ := by
  rw [get_metadata, h]

/-- If the output already has the target file, `get_street_view` stops at
the existence check. -/
theorem get_street_view_conflict {key net enc fs a v b}
    (hv : parseSV a = .ok v)
    (hb : fsGet fs (joinPath OUTPUT_DIR v.filename) = some b) :
    get_street_view key net enc fs a =
      ⟨.error (.conflict v.filename),
        [.ensureDir OUTPUT_DIR, .accessCheck (joinPath OUTPUT_DIR v.filename)], fs⟩ := by
  rw [get_street_view, hv]
  simp only [hb]

theorem fsGet_none_count {β : Type} {fs : Fs β} {path : String}
    (h : fsGet fs path = none) : fsCount fs path = 0 := by
  induction fs with
  | nil => rfl
  | cons p t ih =>
    obtain ⟨k, v⟩ := p
    rw [fsGet] at h
    split_ifs at h with hk
    simpa [fsCount, List.filter, hk] using ih h

/-- A selector count other than one makes `get_street_view` reject before
any I/O. -/
theorem sv_count_ne_one_rejects (key : Option String)
    (net : ImgParams → Except String Bytes) (enc : Bytes → Bytes) (fs : Fs Bytes)
    (a : SVRawArgs) (h : countLocationMethods a.location a.lat_lng a.pano_id ≠ 1) :
    isValidationError (get_street_view key net enc fs a).res = true ∧
      (get_street_view key net enc fs a).events = [] := by
  cases hp : parseSV a with
  | error e =>
    rw [get_street_view_parse_error hp]
    exact ⟨rfl, rfl⟩
  | ok v => exact absurd (parseSV_ok_inv hp).1 h

/-- A selector count other than one makes `get_metadata` reject before any
I/O. -/
theorem meta_count_ne_one_rejects (key : Option String)
    (net : MetaParams → Except String StreetViewMetadata)
    (a : MetaRawArgs) (h : countLocationMethods a.location a.lat_lng a.pano_id ≠ 1) :
    isValidationError (get_metadata key net a).res = true ∧
      (get_metadata key net a).events = [] := by
  cases hp : parseMeta a with
  | error e =>
    rw [get_metadata_parse_error hp]
    exact ⟨rfl, rfl⟩
  | ok v => exact absurd (parseMeta_ok_inv hp).1 h

/-! ## The claims -/

/-- C1: for every `get_street_view` and `get_metadata` request in which the
count of provided (truthy) location selectors among location, lat_lng,
pano_id is not exactly one, the operation rejects with a validation error
and performs no I/O at all — in particular no network call. -/
theorem location_selector_count_validated :
    (∀ (key : Option String) (net : ImgParams → Except String Bytes)
        (enc : Bytes → Bytes) (fs : Fs Bytes) (a : SVRawArgs),
      countLocationMethods a.location a.lat_lng a.pano_id ≠ 1 →
      isValidationError (get_street_view key net enc fs a).res = true ∧
        (get_street_view key net enc fs a).events = []) ∧
    (∀ (key : Option String) (net : MetaParams → Except String StreetViewMetadata)
        (a : MetaRawArgs),
      countLocationMethods a.location a.lat_lng a.pano_id ≠ 1 →
      isValidationError (get_metadata key net a).res = true ∧
        (get_metadata key net a).events = []) :=
  ⟨sv_count_ne_one_rejects, meta_count_ne_one_rejects⟩

/-- Witness for C1: zero selectors on both operations, and two selectors on
`get_street_view`. -/
theorem location_selector_count_validated_witness :
    (countLocationMethods none none none ≠ 1 ∧
      isValidationError (get_street_view (some "k") (fun _ => .ok [])
          (fun b => b) [] { filename := some "a.jpg" }).res = true ∧
      (get_street_view (some "k") (fun _ => .ok []) (fun b => b) []
          { filename := some "a.jpg" }).events = []) ∧
    (countLocationMethods (some "x") (some "1,2") none ≠ 1 ∧
      isValidationError (get_metadata (some "k") (fun _ => .error "down")
          { location := some "x", lat_lng := some "1,2" }).res = true) :=
  ⟨⟨by decide,
    location_selector_count_validated.1 (some "k") (fun _ => .ok []) (fun b => b) []
      { filename := some "a.jpg" } (by decide)⟩,
   ⟨by decide,
    (location_selector_count_validated.2 (some "k") (fun _ => .error "down")
      { location := some "x", lat_lng := some "1,2" } (by decide)).1⟩⟩

/-- C2: when the target filename already exists in the output directory,
`get_street_view` fails with a conflict error; its event trace is exactly
the directory ensure followed by the existence check — no network request
— and the filesystem (in particular the pre-existing file's bytes) is
unchanged. -/
theorem fetch_image_never_overwrites (key : Option String)
    (net : ImgParams → Except String Bytes) (enc : Bytes → Bytes) (fs : Fs Bytes)
    (a : SVRawArgs) (v : SVArgs) (b : Bytes)
    (hv : parseSV a = .ok v)
    (hb : fsGet fs (joinPath OUTPUT_DIR v.filename) = some b) :
    (get_street_view key net enc fs a).res = .error (.conflict v.filename) ∧
    (get_street_view key net enc fs a).events =
      [.ensureDir OUTPUT_DIR, .accessCheck (joinPath OUTPUT_DIR v.filename)] ∧
    hasNetEvent (get_street_view key net enc fs a).events = false ∧
    (get_street_view key net enc fs a).fs = fs ∧
    fsGet (get_street_view key net enc fs a).fs (joinPath OUTPUT_DIR v.filename) = some b := by
  rw [get_street_view_conflict hv hb]
  exact ⟨rfl, rfl, rfl, rfl, hb⟩

/-- Witness for C2: `a.jpg` already present with bytes `[7]`. -/
theorem fetch_image_never_overwrites_witness :
    (get_street_view (some "k") (fun _ => .ok [1]) (fun b => b)
        [("output/a.jpg", [7])] { filename := some "a.jpg", location := some "x" }).res =
      .error (.conflict "a.jpg") ∧
    (get_street_view (some "k") (fun _ => .ok [1]) (fun b => b)
        [("output/a.jpg", [7])] { filename := some "a.jpg", location := some "x" }).fs =
      [("output/a.jpg", [7])] :=
  ⟨(fetch_image_never_overwrites (some "k") (fun _ => .ok [1]) (fun b => b)
      [("output/a.jpg", [7])] { filename := some "a.jpg", location := some "x" }
      { filename := "a.jpg", location := some "x", lat_lng := none, pano_id := none,
        size := "600x400", heading := 0, pitch := 0, fov := 90, radius := 50,
        source := "default" } [7] (by decide) (by decide)).1,
   (fetch_image_never_overwrites (some "k") (fun _ => .ok [1]) (fun b => b)
      [("output/a.jpg", [7])] { filename := some "a.jpg", location := some "x" }
      { filename := "a.jpg", location := some "x", lat_lng := none, pano_id := none,
        size := "600x400", heading := 0, pitch := 0, fov := 90, radius := 50,
        source := "default" } [7] (by decide) (by decide)).2.2.2.1⟩

/-- A numeric field of `get_street_view` whose value lies outside its
declared range. -/
def svRangeViolation (a : SVRawArgs) : Prop :=
  (∃ q, a.heading = some q ∧ (q < 0 ∨ 360 < q)) ∨
  (∃ q, a.pitch = some q ∧ (q < -90 ∨ 90 < q)) ∨
  (∃ q, a.fov = some q ∧ (q < 10 ∨ 120 < q)) ∨
  (∃ q, a.radius = some q ∧ q < 1)

/-- C3: an out-of-range heading, pitch, fov or radius makes
`get_street_view` reject with a validation error and perform no I/O at all
— in particular no network request. -/
theorem numeric_range_validated (key : Option String)
    (net : ImgParams → Except String Bytes) (enc : Bytes → Bytes) (fs : Fs Bytes)
    (a : SVRawArgs) (h : svRangeViolation a) :
    isValidationError (get_street_view key net enc fs a).res = true ∧
      (get_street_view key net enc fs a).events = [] := by
  cases hp : parseSV a with
  | error e =>
    rw [get_street_view_parse_error hp]
    exact ⟨rfl, rfl⟩
  | ok v =>
    exfalso
    obtain ⟨-, hh, hpi, hf, hr, -⟩ := parseSV_ok_inv hp
    rcases h with ⟨q, hq, hout⟩ | ⟨q, hq, hout⟩ | ⟨q, hq, hout⟩ | ⟨q, hq, hout⟩
    · obtain ⟨hlo, hhi, -⟩ := checkInt_some_range hh hq
      push_cast at hlo hhi
      rcases hout with ho | ho <;> linarith
    · obtain ⟨hlo, hhi, -⟩ := checkInt_some_range hpi hq
      push_cast at hlo hhi
      rcases hout with ho | ho <;> linarith
    · obtain ⟨hlo, hhi, -⟩ := checkInt_some_range hf hq
      push_cast at hlo hhi
      rcases hout with ho | ho <;> linarith
    · obtain ⟨hlo, -⟩ := checkInt_some_lo hr hq
      push_cast at hlo
      linarith

/-- Witness for C3: heading 361 alone triggers the rejection. -/
theorem numeric_range_validated_witness :
    isValidationError (get_street_view (some "k") (fun _ => .ok []) (fun b => b) []
        { filename := some "a.jpg", location := some "x", heading := some 361 }).res = true ∧
      (get_street_view (some "k") (fun _ => .ok []) (fun b => b) []
        { filename := some "a.jpg", location := some "x", heading := some 361 }).events = [] :=
  numeric_range_validated (some "k") (fun _ => .ok []) (fun b => b) []
    { filename := some "a.jpg", location := some "x", heading := some 361 }
    (Or.inl ⟨361, rfl, Or.inr (by norm_num)⟩)

/-- A numeric field of `get_street_view` carrying a non-integer value. -/
def svNonIntegerField (a : SVRawArgs) : Prop :=
  (∃ q, a.heading = some q ∧ q.den ≠ 1) ∨
  (∃ q, a.pitch = some q ∧ q.den ≠ 1) ∨
  (∃ q, a.fov = some q ∧ q.den ≠ 1) ∨
  (∃ q, a.radius = some q ∧ q.den ≠ 1)

/-- C9: a non-integer heading, pitch, fov or radius (in range or not) makes
`get_street_view` reject with a validation error before any I/O. -/
theorem integer_fields_validated (key : Option String)
    (net : ImgParams → Except String Bytes) (enc : Bytes → Bytes) (fs : Fs Bytes)
    (a : SVRawArgs) (h : svNonIntegerField a) :
    isValidationError (get_street_view key net enc fs a).res = true ∧
      (get_street_view key net enc fs a).events = [] := by
  cases hp : parseSV a with
  | error e =>
    rw [get_street_view_parse_error hp]
    exact ⟨rfl, rfl⟩
  | ok v =>
    exfalso
    obtain ⟨-, hh, hpi, hf, hr, -⟩ := parseSV_ok_inv hp
    rcases h with ⟨q, hq, hden⟩ | ⟨q, hq, hden⟩ | ⟨q, hq, hden⟩ | ⟨q, hq, hden⟩
    · exact hden (checkInt_ok_some hh q hq).1
    · exact hden (checkInt_ok_some hpi q hq).1
    · exact hden (checkInt_ok_some hf q hq).1
    · exact hden (checkInt_ok_some hr q hq).1

/-- Witness for C9: heading 90.5 (the rational 181/2) is within the 0–360
range but not an integer. -/
theorem integer_fields_validated_witness :
    isValidationError (get_street_view (some "k") (fun _ => .ok []) (fun b => b) []
        { filename := some "a.jpg", location := some "x",
          heading := some (mkRat 181 2) }).res = true ∧
      (get_street_view (some "k") (fun _ => .ok []) (fun b => b) []
        { filename := some "a.jpg", location := some "x",
          heading := some (mkRat 181 2) }).events = [] :=
  integer_fields_validated (some "k") (fun _ => .ok []) (fun b => b) []
    { filename := some "a.jpg", location := some "x", heading := some (mkRat 181 2) }
    (Or.inl ⟨mkRat 181 2, rfl, by decide⟩)

/-- C8: in the selector count of both schemas an empty string counts as
absent: an empty location next to a non-empty lat_lng yields count one
(passing the check), while an empty string as the only supplied selector
yields count zero, and such a request is rejected by both operations. -/
theorem empty_selector_counts_as_absent :
    (∀ s : String, s ≠ "" → countLocationMethods (some "") (some s) none = 1) ∧
    countLocationMethods (some "") none none = 0 ∧
    (∀ (key : Option String) (net : ImgParams → Except String Bytes)
        (enc : Bytes → Bytes) (fs : Fs Bytes) (a : SVRawArgs),
      a.location = some "" → a.lat_lng = none → a.pano_id = none →
      isValidationError (get_street_view key net enc fs a).res = true ∧
        (get_street_view key net enc fs a).events = []) ∧
    (∀ (key : Option String) (net : MetaParams → Except String StreetViewMetadata)
        (a : MetaRawArgs),
      a.location = some "" → a.lat_lng = none → a.pano_id = none →
      isValidationError (get_metadata key net a).res = true ∧
        (get_metadata key net a).events = []) := by
  refine ⟨?_, by decide, ?_, ?_⟩
  · intro s hs
    simp [countLocationMethods, List.filter, truthy, hs]
  · intro key net enc fs a h1 h2 h3
    refine sv_count_ne_one_rejects key net enc fs a ?_
    rw [h1, h2, h3]
    decide
  · intro key net a h1 h2 h3
    refine meta_count_ne_one_rejects key net a ?_
    rw [h1, h2, h3]
    decide

/-- Any image request the `get_street_view` handler actually sends carries
the parameters produced by `buildImgParams` on the validated arguments. -/
theorem get_street_view_net_inv {key : Option String}
    {net : ImgParams → Except String Bytes} {enc : Bytes → Bytes} {fs : Fs Bytes}
    {a : SVRawArgs} {p : ImgParams}
    (h : Event.netImage p ∈ (get_street_view key net enc fs a).events) :
    ∃ v, parseSV a = .ok v ∧ buildImgParams v = .ok p := by
  cases hp : parseSV a with
  | error e =>
    rw [get_street_view_parse_error hp] at h
    simp at h
  | ok v =>
    rw [get_street_view, hp] at h
    cases hg : fsGet fs (joinPath OUTPUT_DIR v.filename) with
    | some b =>
      simp only [hg] at h
      simp at h
    | none =>
      simp only [hg] at h
      cases hbp : buildImgParams v with
      | error e =>
        simp only [hbp] at h
        simp at h
      | ok p' =>
        simp only [hbp] at h
        cases key with
        | none => simp at h
        | some k =>
          cases hn : net p' with
          | error m =>
            simp only [hn] at h
            simp at h
            subst h
            exact ⟨v, rfl, hbp⟩
          | ok bytes =>
            simp only [hn] at h
            simp at h
            subst h
            exact ⟨v, rfl, hbp⟩

/-- Any metadata request the `get_metadata` handler actually sends carries
the parameters produced by `buildMetaParams` on the validated arguments. -/
theorem get_metadata_net_inv {key : Option String}
    {net : MetaParams → Except String StreetViewMetadata}
    {a : MetaRawArgs} {p : MetaParams}
    (h : Event.netMeta p ∈ (get_metadata key net a).events) :
    ∃ v, parseMeta a = .ok v ∧ buildMetaParams v = .ok p := by
  cases hp : parseMeta a with
  | error e =>
    rw [get_metadata_parse_error hp] at h
    simp at h
  | ok v =>
    rw [get_metadata, hp] at h
    cases hbp : buildMetaParams v with
    | error e =>
      simp only [hbp] at h
      simp at h
    | ok p' =>
      simp only [hbp] at h
      cases key with
      | none => simp at h
      | some k =>
        cases hn : net p' with
        | error m =>
          simp only [hn] at h
          simp at h
          subst h
          exact ⟨v, rfl, hbp⟩
        | ok md =>
          simp only [hn] at h
          simp at h
          subst h
          exact ⟨v, rfl, hbp⟩

theorem countLocationMethods_eq (l g p : Option String) :
    countLocationMethods l g p =
      (if truthy l then 1 else 0) + (if truthy g then 1 else 0) +
        (if truthy p then 1 else 0) := by
  cases hl : truthy l <;> cases hg : truthy g <;> cases hp : truthy p <;>
    simp [countLocationMethods, List.filter, hl, hg, hp]

theorem count_one_of_falsy {l g p : Option String}
    (hc : countLocationMethods l g p = 1) (hl : truthy l = false)
    (hg : truthy g = false) : truthy p = true := by
  rw [countLocationMethods_eq, hl, hg] at hc
  cases hp : truthy p with
  | false => rw [hp] at hc; simp at hc
  | true => rfl

theorem buildImgParams_pano {v : SVArgs} {p : ImgParams}
    (hl : truthy v.location = false) (hg : truthy v.lat_lng = false)
    (hp : truthy v.pano_id = true) (h : buildImgParams v = .ok p) :
    p.radius = none ∧ p.pano = v.pano_id := by
  simp only [buildImgParams, hl, hg, hp] at h
  cases h
  exact ⟨rfl, rfl⟩

theorem buildImgParams_nonpano {v : SVArgs} {p : ImgParams}
    (h : truthy v.location = true ∨ truthy v.lat_lng = true)
    (hb : buildImgParams v = .ok p) : p.radius = some v.radius := by
  by_cases hl : truthy v.location
  · simp only [buildImgParams, hl] at hb
    cases hb
    rfl
  · rcases h with h | hg
    · exact absurd h hl
    · simp only [buildImgParams, hl, hg] at hb
      cases hll : parseLatLng (v.lat_lng.getD "") with
      | error e => rw [hll] at hb; exact absurd hb (fun hc => Except.noConfusion hc)
      | ok c =>
        obtain ⟨la, ln⟩ := c
        rw [hll] at hb
        cases hb
        rfl

theorem buildMetaParams_pano {v : MetaArgs} {p : MetaParams}
    (hl : truthy v.location = false) (hg : truthy v.lat_lng = false)
    (hp : truthy v.pano_id = true) (h : buildMetaParams v = .ok p) :
    p.radius = none ∧ p.pano = v.pano_id := by
  simp only [buildMetaParams, hl, hg, hp] at h
  cases h
  exact ⟨rfl, rfl⟩

theorem buildMetaParams_nonpano {v : MetaArgs} {p : MetaParams}
    (h : truthy v.location = true ∨ truthy v.lat_lng = true)
    (hb : buildMetaParams v = .ok p) : p.radius = some v.radius := by
  by_cases hl : truthy v.location
  · simp only [buildMetaParams, hl] at hb
    cases hb
    rfl
  · rcases h with h | hg
    · exact absurd h hl
    · simp only [buildMetaParams, hl, hg] at hb
      cases hll : parseLatLng (v.lat_lng.getD "") with
      | error e => rw [hll] at hb; exact absurd hb (fun hc => Except.noConfusion hc)
      | ok c =>
        obtain ⟨la, ln⟩ := c
        rw [hll] at hb
        cases hb
        rfl

/-- C4: when the panorama id is the selector (location and lat_lng falsy),
every parameter set either handler sends upstream omits radius and carries
the pano id; with an address or coordinates selector the radius is
included; and internally the default radius 50 exists even for requests
that never send it. -/
theorem pano_id_omits_radius :
    (∀ (key : Option String) (net : ImgParams → Except String Bytes)
        (enc : Bytes → Bytes) (fs : Fs Bytes) (a : SVRawArgs) (p : ImgParams),
      truthy a.location = false → truthy a.lat_lng = false →
      Event.netImage p ∈ (get_street_view key net enc fs a).events →
      p.radius = none ∧ p.pano = a.pano_id) ∧
    (∀ (key : Option String) (net : ImgParams → Except String Bytes)
        (enc : Bytes → Bytes) (fs : Fs Bytes) (a : SVRawArgs) (p : ImgParams),
      truthy a.location = true ∨ truthy a.lat_lng = true →
      Event.netImage p ∈ (get_street_view key net enc fs a).events →
      ∃ n : Int, p.radius = some n) ∧
    (∀ (key : Option String) (net : MetaParams → Except String StreetViewMetadata)
        (a : MetaRawArgs) (p : MetaParams),
      truthy a.location = false → truthy a.lat_lng = false →
      Event.netMeta p ∈ (get_metadata key net a).events →
      p.radius = none ∧ p.pano = a.pano_id) ∧
    (∀ (key : Option String) (net : MetaParams → Except String StreetViewMetadata)
        (a : MetaRawArgs) (p : MetaParams),
      truthy a.location = true ∨ truthy a.lat_lng = true →
      Event.netMeta p ∈ (get_metadata key net a).events →
      ∃ n : Int, p.radius = some n) ∧
    (∀ (a : SVRawArgs) (v : SVArgs), parseSV a = .ok v → a.radius = none →
      v.radius = 50) := by
  refine ⟨?_, ?_, ?_, ?_, ?_⟩
  · intro key net enc fs a p hl hg h
    obtain ⟨v, hv, hb⟩ := get_street_view_net_inv h
    obtain ⟨hcount, -, -, -, -, hvl, hvg, hvp⟩ := parseSV_ok_inv hv
    have hp : truthy v.pano_id = true := by
      rw [hvp]
      exact count_one_of_falsy hcount hl hg
    obtain ⟨h1, h2⟩ := buildImgParams_pano (by rw [hvl]; exact hl) (by rw [hvg]; exact hg) hp hb
    exact ⟨h1, by rw [h2, hvp]⟩
  · intro key net enc fs a p hor h
    obtain ⟨v, hv, hb⟩ := get_street_view_net_inv h
    obtain ⟨-, -, -, -, -, hvl, hvg, -⟩ := parseSV_ok_inv hv
    refine ⟨v.radius, buildImgParams_nonpano ?_ hb⟩
    rcases hor with h' | h'
    · exact Or.inl (by rw [hvl]; exact h')
    · exact Or.inr (by rw [hvg]; exact h')
  · intro key net a p hl hg h
    obtain ⟨v, hv, hb⟩ := get_metadata_net_inv h
    obtain ⟨hcount, -, hvl, hvg, hvp⟩ := parseMeta_ok_inv hv
    have hp : truthy v.pano_id = true := by
      rw [hvp]
      exact count_one_of_falsy hcount hl hg
    obtain ⟨h1, h2⟩ := buildMetaParams_pano (by rw [hvl]; exact hl) (by rw [hvg]; exact hg) hp hb
    exact ⟨h1, by rw [h2, hvp]⟩
  · intro key net a p hor h
    obtain ⟨v, hv, hb⟩ := get_metadata_net_inv h
    obtain ⟨-, -, hvl, hvg, -⟩ := parseMeta_ok_inv hv
    refine ⟨v.radius, buildMetaParams_nonpano ?_ hb⟩
    rcases hor with h' | h'
    · exact Or.inl (by rw [hvl]; exact h')
    · exact Or.inr (by rw [hvg]; exact h')
  · intro a v hv hr
    obtain ⟨-, -, -, -, hrad, -⟩ := parseSV_ok_inv hv
    rw [hr] at hrad
    simp only [checkInt] at hrad
    exact (Except.ok.injEq _ _).mp hrad.symm

/-- Witness for C4: a pano_id request whose actually-sent parameter set
omits radius. -/
theorem pano_id_omits_radius_witness :
    (truthy (none : Option String) = false ∧
      Event.netImage
          { size := "600x400", heading := 0, pitch := 0, fov := 90, radius := none,
            source := "default", returnErrorCode := true, location := none,
            pano := some "PANO1" } ∈
        (get_street_view (some "k") (fun _ => .ok []) (fun b => b) []
          { filename := some "a.jpg", pano_id := some "PANO1" }).events) ∧
    ({ size := "600x400", heading := 0, pitch := 0, fov := 90, radius := none,
        source := "default", returnErrorCode := true, location := none,
        pano := some "PANO1" } : ImgParams).radius = none :=
  ⟨⟨by decide, by decide⟩,
   (pano_id_omits_radius.1 (some "k") (fun _ => .ok []) (fun b => b) []
      { filename := some "a.jpg", pano_id := some "PANO1" }
      { size := "600x400", heading := 0, pitch := 0, fov := 90, radius := none,
        source := "default", returnErrorCode := true, location := none,
        pano := some "PANO1" } rfl rfl (by decide)).1⟩

/-- Witness for C8: the count check passes with an empty location plus a
real lat_lng, and an empty-string-only request is rejected. -/
theorem empty_selector_counts_as_absent_witness :
    ("40.7,-74.0" ≠ "" ∧ countLocationMethods (some "") (some "40.7,-74.0") none = 1) ∧
    isValidationError (get_street_view (some "k") (fun _ => .ok []) (fun b => b) []
        { filename := some "a.jpg", location := some "" }).res = true :=
  ⟨⟨by decide, empty_selector_counts_as_absent.1 "40.7,-74.0" (by decide)⟩,
   (empty_selector_counts_as_absent.2.2.1 (some "k") (fun _ => .ok []) (fun b => b) []
      { filename := some "a.jpg", location := some "" } rfl rfl rfl).1⟩





/-- With a validated parse, a free target path and a failing parameter
build (malformed lat_lng), `get_street_view` errors only after ensuring
the directory and checking the file — but before any network request. -/
theorem get_street_view_build_error {key : Option String}
    {net : ImgParams → Except String Bytes} {enc : Bytes → Bytes} {fs : Fs Bytes}
    {a : SVRawArgs} {v : SVArgs} {e : String}
    (hv : parseSV a = .ok v)
    (hg : fsGet fs (joinPath OUTPUT_DIR v.filename) = none)
    (hb : buildImgParams v = .error e) :
    get_street_view key net enc fs a =
      ⟨.error .badLatLng,
        [.ensureDir OUTPUT_DIR, .accessCheck (joinPath OUTPUT_DIR v.filename)], fs⟩ := by
  rw [get_street_view, hv]
  simp only [hg, hb]

/-- In `get_metadata` a failing parameter build is rejected before any I/O
at all. -/
theorem get_metadata_build_error {key : Option String}
    {net : MetaParams → Except String StreetViewMetadata}
    {a : MetaRawArgs} {v : MetaArgs} {e : String}
    (hv : parseMeta a = .ok v)
    (hb : buildMetaParams v = .error e) :
    get_metadata key net a = ⟨.error .badLatLng, []⟩ := by
  rw [get_metadata, hv]
  simp only [hb]

/-- C5: calling `create_html_page` twice with the same arguments, starting
from a state where the derived target file does not exist, succeeds the
first time, fails with a conflict error the second time, leaves the
filesystem of the first call untouched, and exactly one file sits at the
target path afterwards. -/
theorem render_gallery_write_once (fs : Fs String) (a : HtmlRawArgs) (v : HtmlArgs)
    (hv : parseHtml a = .ok v)
    (hnone : fsGet fs (joinPath HTML_DIR (htmlFilename v.filename)) = none) :
    (create_html_page fs a).res = .ok (htmlFilename v.filename) ∧
    (create_html_page (create_html_page fs a).fs a).res =
      .error (.conflict (htmlFilename v.filename)) ∧
    (create_html_page (create_html_page fs a).fs a).fs = (create_html_page fs a).fs ∧
    fsCount (create_html_page fs a).fs (joinPath HTML_DIR (htmlFilename v.filename)) = 1 := by
  have h1 : create_html_page fs a =
      ⟨.ok (htmlFilename v.filename),
        [.ensureDir HTML_DIR, .accessCheck (joinPath HTML_DIR (htmlFilename v.filename)),
          .fileWrite (joinPath HTML_DIR (htmlFilename v.filename))],
        (joinPath HTML_DIR (htmlFilename v.filename),
          htmlTemplate v.title (String.intercalate "\n" v.html_elements)) :: fs⟩ := by
    rw [create_html_page, hv]
    simp [hnone]
  have h2 : create_html_page
      ((joinPath HTML_DIR (htmlFilename v.filename),
        htmlTemplate v.title (String.intercalate "\n" v.html_elements)) :: fs) a =
      ⟨.error (.conflict (htmlFilename v.filename)),
        [.ensureDir HTML_DIR, .accessCheck (joinPath HTML_DIR (htmlFilename v.filename))],
        (joinPath HTML_DIR (htmlFilename v.filename),
          htmlTemplate v.title (String.intercalate "\n" v.html_elements)) :: fs⟩ := by
    rw [create_html_page, hv]
    simp [fsGet]
  rw [h1]
  refine ⟨rfl, ?_, ?_, ?_⟩
  · rw [h2]
  · rw [h2]
  · have h0 := fsGet_none_count hnone
    simp [fsCount, List.filter] at h0 ⊢
    exact h0

/-- Witness for C5: a fresh gallery named `tour` written twice. -/
theorem render_gallery_write_once_witness :
    (create_html_page [] { filename := some "tour", html_elements := some ["<p>hi</p>"] }).res =
      .ok (htmlFilename "tour") ∧
    (create_html_page
        (create_html_page [] { filename := some "tour", html_elements := some ["<p>hi</p>"] }).fs
        { filename := some "tour", html_elements := some ["<p>hi</p>"] }).res =
      .error (.conflict (htmlFilename "tour")) :=
  ⟨(render_gallery_write_once [] { filename := some "tour", html_elements := some ["<p>hi</p>"] }
      { filename := "tour", title := "Street View Tour", html_elements := ["<p>hi</p>"] }
      (by decide) rfl).1,
   (render_gallery_write_once [] { filename := some "tour", html_elements := some ["<p>hi</p>"] }
      { filename := "tour", title := "Street View Tour", html_elements := ["<p>hi</p>"] }
      (by decide) rfl).2.1⟩

/-- Counterexample to C7 as stated: a lat_lng of "abc,1" passes the schema
(it is just a string), so `get_street_view` ensures the output directory
and performs the file-existence check — both filesystem I/O — before
`parseLatLng` rejects the value; the event trace at the rejection is not
empty. -/
theorem validation_before_io_counterexample :
    (get_street_view (some "k") (fun _ => .ok []) (fun b => b) []
        { filename := some "a.jpg", lat_lng := some "abc,1" }).res = .error .badLatLng ∧
    (get_street_view (some "k") (fun _ => .ok []) (fun b => b) []
        { filename := some "a.jpg", lat_lng := some "abc,1" }).events =
      [.ensureDir OUTPUT_DIR, .accessCheck (joinPath OUTPUT_DIR "a.jpg")] ∧
    (get_street_view (some "k") (fun _ => .ok []) (fun b => b) []
        { filename := some "a.jpg", lat_lng := some "abc,1" }).events ≠ [] := by
  refine ⟨by decide, by decide, by decide⟩

/-- C7 as amended: schema-level validation failures are rejected by both
operations before any I/O; a lat_lng string that does not parse as two
numbers is rejected before any network request, but in `get_street_view`
only after the directory ensure and the file-existence check, while in
`get_metadata` it is rejected before any I/O. -/
theorem validation_io_order :
    (∀ (key : Option String) (net : ImgParams → Except String Bytes)
        (enc : Bytes → Bytes) (fs : Fs Bytes) (a : SVRawArgs) (e : String),
      parseSV a = .error e →
      (get_street_view key net enc fs a).events = [] ∧
        isValidationError (get_street_view key net enc fs a).res = true) ∧
    (∀ (key : Option String) (net : MetaParams → Except String StreetViewMetadata)
        (a : MetaRawArgs) (e : String),
      parseMeta a = .error e →
      (get_metadata key net a).events = [] ∧
        isValidationError (get_metadata key net a).res = true) ∧
    (∀ (key : Option String) (net : ImgParams → Except String Bytes)
        (enc : Bytes → Bytes) (fs : Fs Bytes) (a : SVRawArgs) (v : SVArgs) (e : String),
      parseSV a = .ok v → buildImgParams v = .error e →
      fsGet fs (joinPath OUTPUT_DIR v.filename) = none →
      (get_street_view key net enc fs a).res = .error .badLatLng ∧
      (get_street_view key net enc fs a).events =
        [.ensureDir OUTPUT_DIR, .accessCheck (joinPath OUTPUT_DIR v.filename)] ∧
      hasNetEvent (get_street_view key net enc fs a).events = false) ∧
    (∀ (key : Option String) (net : MetaParams → Except String StreetViewMetadata)
        (a : MetaRawArgs) (v : MetaArgs) (e : String),
      parseMeta a = .ok v → buildMetaParams v = .error e →
      (get_metadata key net a).res = .error .badLatLng ∧
        (get_metadata key net a).events = []) := by
  refine ⟨?_, ?_, ?_, ?_⟩
  · intro key net enc fs a e h
    rw [get_street_view_parse_error h]
    exact ⟨rfl, rfl⟩
  · intro key net a e h
    rw [get_metadata_parse_error h]
    exact ⟨rfl, rfl⟩
  · intro key net enc fs a v e hv hb hg
    rw [get_street_view_build_error hv hg hb]
    exact ⟨rfl, rfl, rfl⟩
  · intro key net a v e hv hb
    rw [get_metadata_build_error hv hb]
    exact ⟨rfl, rfl⟩

/-- Witness for the amended C7: the malformed lat_lng "abc,1" on both
operations. -/
theorem validation_io_order_witness :
    ((get_street_view (some "k") (fun _ => .ok []) (fun b => b) []
        { filename := some "b.jpg", lat_lng := some "abc,1" }).res = .error .badLatLng ∧
      (get_street_view (some "k") (fun _ => .ok []) (fun b => b) []
        { filename := some "b.jpg", lat_lng := some "abc,1" }).events =
        [.ensureDir OUTPUT_DIR, .accessCheck (joinPath OUTPUT_DIR "b.jpg")] ∧
      hasNetEvent (get_street_view (some "k") (fun _ => .ok []) (fun b => b) []
        { filename := some "b.jpg", lat_lng := some "abc,1" }).events = false) ∧
    ((get_metadata (some "k") (fun _ => .error "down")
        { lat_lng := some "abc,1" }).res = .error .badLatLng ∧
      (get_metadata (some "k") (fun _ => .error "down")
        { lat_lng := some "abc,1" }).events = []) :=
  ⟨validation_io_order.2.2.1 (some "k") (fun _ => .ok []) (fun b => b) []
      { filename := some "b.jpg", lat_lng := some "abc,1" }
      { filename := "b.jpg", location := none, lat_lng := some "abc,1", pano_id := none,
        size := "600x400", heading := 0, pitch := 0, fov := 90, radius := 50,
        source := "default" }
      "Invalid lat_lng format. Use format: 40.714728,-73.998672"
      (by decide) (by decide) rfl,
   validation_io_order.2.2.2 (some "k") (fun _ => .error "down")
      { lat_lng := some "abc,1" }
      { location := none, lat_lng := some "abc,1", pano_id := none, radius := 50,
        source := "default" }
      "Invalid lat_lng format. Use format: 40.714728,-73.998672"
      (by decide) (by decide)⟩

/-- C10: the `.html` suffix check of `create_html_page` is case-sensitive:
a filename already ending in exactly ".html" is kept, any other filename —
including the case variant "foo.HTML" — gets ".html" appended. -/
theorem html_extension_case_sensitive :
    (∀ f : String, strEndsWith f ".html" = true → htmlFilename f = f) ∧
    (∀ f : String, strEndsWith f ".html" = false → htmlFilename f = f ++ ".html") ∧
    strEndsWith "foo.HTML" ".html" = false ∧
    htmlFilename "foo.HTML" = "foo.HTML.html" := by
  refine ⟨?_, ?_, by decide, by decide⟩
  · intro f h
    simp [htmlFilename, h]
  · intro f h
    simp [htmlFilename, h]

/-- Witness for C10: ".html" kept on "a.html", appended on "b". -/
theorem html_extension_case_sensitive_witness :
    (strEndsWith "a.html" ".html" = true ∧ htmlFilename "a.html" = "a.html") ∧
    (strEndsWith "b" ".html" = false ∧ htmlFilename "b" = "b" ++ ".html") :=
  ⟨⟨by decide, html_extension_case_sensitive.1 "a.html" (by decide)⟩,
   ⟨by decide, html_extension_case_sensitive.2.1 "b" (by decide)⟩⟩

theorem clex_irrefl (as : List Char) : ¬ CLex as as :=
  fun h => clex_asymm h h

/-- C6: `list_saved_images` returns its entries most recently modified
first — for any three listed image files with modification times
t1 < t2 < t3 (as ISO strings), in whatever order the directory reports
them, the returned order is [t3, t2, t1]. -/
theorem list_images_most_recent_first (d1 d2 d3 : DirEntry) (l : List DirEntry)
    (hi1 : isImageFile d1.filename = true) (hi2 : isImageFile d2.filename = true)
    (hi3 : isImageFile d3.filename = true)
    (h12 : charListLt d1.modified.data d2.modified.data = true)
    (h23 : charListLt d2.modified.data d3.modified.data = true)
    (hl : l.Perm [d1, d2, d3]) :
    list_saved_images l = [mkSavedImage d3, mkSavedImage d2, mkSavedImage d1] := by
  have c12 : CLex d1.modified.data d2.modified.data := (charListLt_iff_lex _ _).mp h12
  have c23 : CLex d2.modified.data d3.modified.data := (charListLt_iff_lex _ _).mp h23
  have c13 : CLex d1.modified.data d3.modified.data := clex_trans c12 c23
  have hfl : List.Perm (l.filter (fun e => isImageFile e.filename)) [d1, d2, d3] := by
    have h := hl.filter (fun e => isImageFile e.filename)
    simpa [List.filter, hi1, hi2, hi3] using h
  have hperm : List.Perm (list_saved_images l)
      [mkSavedImage d1, mkSavedImage d2, mkSavedImage d3] :=
    (List.perm_insertionSort _ _).trans (hfl.map _)
  have hsorted : List.Sorted imageSortRel (list_saved_images l) :=
    List.sorted_insertionSort _ _
  have hpw3 : List.Pairwise (fun x y : SavedImage => x.modified.data ≠ y.modified.data)
      [mkSavedImage d1, mkSavedImage d2, mkSavedImage d3] := by
    refine List.pairwise_cons.mpr ⟨?_, List.pairwise_cons.mpr
      ⟨?_, List.pairwise_singleton _ _⟩⟩
    · intro y hy
      cases hy with
      | head =>
        show d1.modified.data ≠ d2.modified.data
        exact fun he => clex_irrefl _ (he ▸ c12)
      | tail _ hy =>
        cases hy with
        | head =>
          show d1.modified.data ≠ d3.modified.data
          exact fun he => clex_irrefl _ (he ▸ c13)
        | tail _ hy => cases hy
    · intro y hy
      cases hy with
      | head =>
        show d2.modified.data ≠ d3.modified.data
        exact fun he => clex_irrefl _ (he ▸ c23)
      | tail _ hy => cases hy
  have hne : List.Pairwise (fun x y : SavedImage => x.modified.data ≠ y.modified.data)
      (list_saved_images l) :=
    (List.Perm.pairwise_iff (fun h => h.symm) hperm).mpr hpw3
  have hstrict : List.Sorted imageStrictRel (list_saved_images l) := by
    refine List.Pairwise.imp₂ (fun a b hr hab => ?_) hsorted hne
    rcases clex_trichotomy a.modified.data b.modified.data with h | h | h
    · exact absurd h ((charListLt_false_iff _ _).mp hr)
    · exact absurd h hab
    · exact (charListLt_iff_lex _ _).mpr h
  have hstrict_rev :
      List.Sorted imageStrictRel [mkSavedImage d3, mkSavedImage d2, mkSavedImage d1] := by
    refine List.sorted_cons.mpr ⟨?_, List.sorted_cons.mpr ⟨?_, List.sorted_singleton _⟩⟩
    · intro b hb
      cases hb with
      | head => exact h23
      | tail _ hb =>
        cases hb with
        | head => exact (charListLt_iff_lex _ _).mpr c13
        | tail _ hb => cases hb
    · intro b hb
      cases hb with
      | head => exact h12
      | tail _ hb => cases hb
  have hrev : List.Perm [mkSavedImage d1, mkSavedImage d2, mkSavedImage d3]
      [mkSavedImage d3, mkSavedImage d2, mkSavedImage d1] := by
    have p1 : List.Perm
        [mkSavedImage d1, mkSavedImage d2, mkSavedImage d3]
        [mkSavedImage d2, mkSavedImage d1, mkSavedImage d3] :=
      List.Perm.swap _ _ _
    have p2 : List.Perm
        [mkSavedImage d2, mkSavedImage d1, mkSavedImage d3]
        [mkSavedImage d2, mkSavedImage d3, mkSavedImage d1] :=
      List.Perm.cons _ (List.Perm.swap _ _ _)
    have p3 : List.Perm
        [mkSavedImage d2, mkSavedImage d3, mkSavedImage d1]
        [mkSavedImage d3, mkSavedImage d2, mkSavedImage d1] :=
      List.Perm.swap _ _ _
    exact (p1.trans p2).trans p3
  exact List.eq_of_perm_of_sorted (hperm.trans hrev) hstrict hstrict_rev

/-- Concrete directory entries for the C6 witness. -/
def entryA : DirEntry :=
  { filename := "a.jpg", sizeBytes := 2048, created := "2024-01-01T00:00:00.000Z",
    modified := "2024-01-01T00:00:00.000Z", decoded := some ((600, 400), "jpeg") }

/-- Second concrete directory entry for the C6 witness. -/
def entryB : DirEntry :=
  { filename := "b.png", sizeBytes := 1000, created := "2024-01-02T00:00:00.000Z",
    modified := "2024-01-02T00:00:00.000Z", decoded := none }

/-- Third concrete directory entry for the C6 witness. -/
def entryC : DirEntry :=
  { filename := "c.webp", sizeBytes := 3000, created := "2024-01-03T00:00:00.000Z",
    modified := "2024-01-03T00:00:00.000Z", decoded := some ((600, 400), "webp") }

/-- Witness for C6: three files modified on consecutive days, listed by the
directory in scrambled order, come back most recent first. -/
theorem list_images_most_recent_first_witness :
    list_saved_images [entryB, entryC, entryA] =
      [mkSavedImage entryC, mkSavedImage entryB, mkSavedImage entryA] :=
  list_images_most_recent_first entryA entryB entryC [entryB, entryC, entryA]
    (by decide) (by decide) (by decide) (by decide) (by decide) (by decide)
